import Mathlib

/-!
Verification of the GoPro dual-capture orchestration repository.

Shallow embedding of the claim-relevant code:
  * `record_and_fetch_dual_v4.py` — connection routine (`connect_single_gopro`,
    `activate_gopro_wifi`, `test_gopro_connection`), capture aggregation
    (`record_and_fetch_all`), media lookup (`get_latest_video`);
  * `record_and_fetch_dual_v3.py` — download with integrity check
    (`download_latest_clip_with_timestamp`), tiered merge (`combine_videos`),
    combination worker (`video_combination_worker`);
  * `record_and_fetch.py` — media timestamp parsing block.

External processes (curl, ffmpeg, the BLE tool, wpa_supplicant, the Python
standard library datetime parsers, the filesystem) are modelled as oracle
parameters with the success/failure shapes the code inspects; the embedded
definitions reproduce the control flow of the Python source.
-/

namespace GoPro

/-! ## Backoff delay (record_and_fetch_dual_v4.py, activate_gopro_wifi)

Line 127: `delay = min(base_delay * (1.5 ** attempt) + (attempt * 0.5), 15)`
with `base_delay = 3`, evaluated for `attempt > 0`. -/

/-- The backoff wait computed before BLE attempt `attempt`
(`record_and_fetch_dual_v4.py` line 127), in seconds, as an exact rational:
`min(3 * 1.5^attempt + 0.5*attempt, 15)`. -/
def backoff_delay (attempt : Nat) : ℚ :=
  min (3 * (3/2 : ℚ) ^ attempt + (attempt : ℚ) * (1/2)) 15

/-! ## Tiered video combination (record_and_fetch_dual_v3.py, combine_videos)

`combine_videos` tries `try_concat_demuxer`, then `try_concat_filter_copy`,
then `try_concat_reencode`, returning on the first success.  Every ffmpeg
invocation targets the final `output_path` directly (with `-y`); only the
concat demuxer's input file list goes through a temporary file, which is
always unlinked in a `finally` block.  Nothing in `combine_videos` ever
removes `output_path`. -/

/-- The three merge methods of `combine_videos`, in source order. -/
inductive Method
  | concatDemuxer
  | concatFilterCopy
  | concatReencode
deriving DecidableEq, Repr

/-- Outcome of one ffmpeg invocation targeting the output path:
`okRun` — exit 0 with a complete file written at the output path;
`failKeep` — nonzero exit or timeout with a truncated (half-written) file
left at the output path; `failNone` — failure before the output path was
touched (e.g. ffmpeg missing a stream and exiting immediately). -/
inductive FfmpegRun
  | okRun
  | failKeep
  | failNone
deriving DecidableEq, Repr

/-- What is on disk at the target output path. -/
inductive OutFile
  | complete (m : Method)
  | truncated
deriving DecidableEq, Repr

/-- Effect of running one ffmpeg attempt (method `m`) on the file at the
output path.  `-y` means a run that writes always overwrites the previous
content. -/
def runFfmpegAt (prior : Option OutFile) (r : FfmpegRun) (m : Method) :
    Bool × Option OutFile :=
  match r with
  | .okRun => (true, some (.complete m))
  | .failKeep => (false, some .truncated)
  | .failNone => (false, prior)

/-- Environment of one `combine_videos` call: whether ffmpeg is installed,
whether both input clips exist, and the outcome of each of the three
possible ffmpeg invocations. -/
structure CombineEnv where
  ffmpegInstalled : Bool
  inputsExist : Bool
  run1 : FfmpegRun
  run2 : FfmpegRun
  run3 : FfmpegRun
deriving DecidableEq, Repr

/-- Result of `combine_videos`: its return value, the methods actually
attempted in order, the final content of the target output path, and
whether the temporary concat file list was removed. -/
structure CombineOutcome where
  succeeded : Bool
  methodsTried : List Method
  outFile : Option OutFile
  filelistDiscarded : Bool
deriving DecidableEq, Repr

/-- Embedding of `combine_videos` (record_and_fetch_dual_v3.py lines
763-825) over the ffmpeg oracle `env`, starting from content `initial` at
the target output path.  Guards mirror the source: missing ffmpeg or a
missing input returns `False` before any attempt; otherwise the demuxer,
filter-copy and re-encode attempts run in order until one succeeds. -/
def combine_videos (env : CombineEnv) (initial : Option OutFile) :
    CombineOutcome :=
  if !env.ffmpegInstalled then ⟨false, [], initial, true⟩
  else if !env.inputsExist then ⟨false, [], initial, true⟩
  else
    let s1 := runFfmpegAt initial env.run1 .concatDemuxer
    if s1.1 then ⟨true, [.concatDemuxer], s1.2, true⟩
    else
      let s2 := runFfmpegAt s1.2 env.run2 .concatFilterCopy
      if s2.1 then ⟨true, [.concatDemuxer, .concatFilterCopy], s2.2, true⟩
      else
        let s3 := runFfmpegAt s2.2 env.run3 .concatReencode
        ⟨s3.1, [.concatDemuxer, .concatFilterCopy, .concatReencode], s3.2, true⟩

/-- The method sequence the spec prescribes for a given oracle: stop at the
first successful method.  Stated from the spec's words, to be compared with
what `combine_videos` actually tries. -/
def specMethodSequence (env : CombineEnv) : List Method :=
  if env.run1 = .okRun then [.concatDemuxer]
  else if env.run2 = .okRun then [.concatDemuxer, .concatFilterCopy]
  else [.concatDemuxer, .concatFilterCopy, .concatReencode]

/-- Environment of one `combine_videos_simple` call
(record_and_fetch_dual_v4.py lines 475-506): that variant runs only two
ffmpeg invocations — the concat demuxer, then the concat filter-graph
re-encode with `-preset fast`. -/
structure V4CombineEnv where
  run1 : FfmpegRun
  run2 : FfmpegRun
deriving DecidableEq, Repr

/-- Embedding of `combine_videos_simple` (record_and_fetch_dual_v4.py
lines 475-506): the demuxer attempt, then on failure the single re-encode
fallback (filter graph, `-preset fast`); both write the final output path
directly; the temporary concat file list is unlinked in the `finally`
block.  A success is `returncode == 0` with the output file existing,
which the `okRun` outcome entails. -/
def combine_videos_simple (env : V4CombineEnv) (initial : Option OutFile) :
    CombineOutcome :=
  let s1 := runFfmpegAt initial env.run1 .concatDemuxer
  if s1.1 then ⟨true, [.concatDemuxer], s1.2, true⟩
  else
    let s2 := runFfmpegAt s1.2 env.run2 .concatReencode
    ⟨s2.1, [.concatDemuxer, .concatReencode], s2.2, true⟩

/-! ## Connection routine (record_and_fetch_dual_v4.py)

`connect_single_gopro` first checks the interface exists (`ip link show`),
then probes HTTP reachability (`test_gopro_connection`, up to 5 curl
probes); only if the probe fails does it run BLE activation
(`activate_gopro_wifi`), interface setup (`setup_wifi_interface`),
Wi-Fi association (`connect_wifi`) and the final probe.  Every external
command the routine can issue is represented by a `Cmd` constructor. -/

/-- One external command issued by the v4 connection routine, by category. -/
inductive Cmd
  | ipLinkShow        -- ip link show <iface> (interface existence query)
  | httpProbe         -- curl status probe of /gp/gpControl/status
  | iwlistScan        -- sudo iwlist scan (SSID broadcast check)
  | bleWifiOn         -- BLE tool, interactive "wifi on" activation
  | bleWifiOnAlt      -- BLE tool, non-interactive alternative activation
  | btReset           -- reset_bluetooth_smart (hciconfig down/up etc.)
  | pkillSupplicant   -- sudo pkill wpa_supplicant.*iface
  | pkillDhclient     -- sudo pkill dhclient.*iface
  | rmCtrlFile        -- sudo rm -f /var/run/wpa_supplicant/<iface>
  | ipLinkDown        -- sudo ip link set <iface> down
  | ipAddrFlush       -- sudo ip addr flush dev <iface>
  | ipLinkUp          -- sudo ip link set <iface> up
  | testConfExists    -- sudo test -f <wpa_conf> (query)
  | teeBaseConf       -- sudo tee <wpa_conf> (write base config)
  | catConf           -- sudo cat <wpa_conf> (query)
  | teeAppendNetwork  -- sudo tee -a <wpa_conf> (append network block)
  | wpaSupplicantStart -- sudo wpa_supplicant -B -i <iface> -c <conf>
  | dhclientRun       -- timeout 15 sudo dhclient <iface>
  | ipAddrShow        -- ip addr show <iface> (query)
  | ipAddrAddStatic   -- sudo ip addr add 10.5.5.10x/24 dev <iface>
  | ipRouteReplace    -- sudo ip route replace <ip>/32 dev <iface>
deriving DecidableEq, Repr

/-- Radio activation commands (the BLE "wifi on" invocations). -/
def Cmd.isActivation : Cmd → Bool
  | .bleWifiOn | .bleWifiOnAlt => true
  | _ => false

/-- Bluetooth adapter reset. -/
def Cmd.isBtReset : Cmd → Bool
  | .btReset => true
  | _ => false

/-- Network interface or supplicant commands: everything that configures
the interface, the supplicant, addressing or routing.  The read-only
existence query `ip link show` and the other pure queries are not
configuration commands. -/
def Cmd.isIfaceOrSupplicant : Cmd → Bool
  | .pkillSupplicant | .pkillDhclient | .rmCtrlFile | .ipLinkDown
  | .ipAddrFlush | .ipLinkUp | .teeBaseConf | .teeAppendNetwork
  | .wpaSupplicantStart | .dhclientRun | .ipAddrAddStatic
  | .ipRouteReplace => true
  | _ => false

/-- Classification of a failed (or unverified) BLE attempt's stderr, per
the substring matches at lines 156-167 of record_and_fetch_dual_v4.py. -/
inductive ErrClass
  | timedOut    -- "timeout" / "timed out"
  | refused     -- "connection refused" / "no route"
  | notFound    -- "device not found" / "not available"
  | unknown     -- anything else
deriving DecidableEq, Repr

/-- Whether the current attempt's failure class warrants a Bluetooth reset
this round (`needs_bt_reset`, lines 154-167). -/
def needsBtReset (c : ErrClass) (attempt : Nat) : Bool :=
  match c with
  | .timedOut => decide (2 ≤ attempt)
  | .refused => true
  | .notFound => true
  | .unknown => decide (1 ≤ attempt)

/-- Environment of one BLE activation attempt: outcome of the BLE command,
the stderr classification, the three broadcast-verification scans, the
result of a Bluetooth reset if one is invoked, and the outcome of the
alternative (non-interactive) activation used on the last two attempts. -/
structure AttemptEnv where
  bleSuccess : Bool
  errClass : ErrClass
  verify1 : Bool
  verify2 : Bool
  verify3 : Bool
  resetOk : Bool
  altSuccess : Bool
  altWifiOn : Bool
deriving DecidableEq, Repr

/-- Result of `activate_gopro_wifi`: return value, number of invocations of
`reset_bluetooth_smart`, final value of the `bluetooth_reset_count`
counter (which only counts invocations whose verification succeeded), and
the command trace. -/
structure ActResult where
  ok : Bool
  resetInvocations : Nat
  resetCount : Nat
  trace : List Cmd
deriving DecidableEq, Repr

/-- The verification loop after a successful BLE command (lines 143-148):
up to three broadcast scans, stopping at the first positive one.  Returns
whether broadcasting was confirmed and how many scans ran. -/
def verifyScans (v1 v2 v3 : Bool) : Bool × Nat :=
  if v1 then (true, 1) else if v2 then (true, 2) else if v3 then (true, 3)
  else (false, 3)

/-- Whether attempt `k` performs a Bluetooth reset (the guard at line 170):
the body did not return early from a verified BLE success, the failure
class warrants a reset, fewer than 2 resets have been counted, and this is
not the final attempt. -/
def attemptResetFlag (maxAttempts k rc : Nat) (e : AttemptEnv) : Bool :=
  !(e.bleSuccess && (verifyScans e.verify1 e.verify2 e.verify3).1)
    && needsBtReset e.errClass k && decide (rc < 2)
    && decide (k < maxAttempts - 1)

/-- One iteration of the activation loop body (lines 122-187) at attempt
index `k` with current successful-reset count `rc`.  Returns
`(some result, newCount, invocationDelta, trace)` when the body returns,
and `(none, newCount, invocationDelta, trace)` when the loop continues.
`bluetooth_reset_count` advances only when the invoked reset's
verification succeeds (`resetOk`). -/
def attemptStep (maxAttempts k rc : Nat) (e : AttemptEnv) :
    Option Bool × Nat × Nat × List Cmd :=
  let v := verifyScans e.verify1 e.verify2 e.verify3
  let doReset := attemptResetFlag maxAttempts k rc e
  let rc' := if doReset && e.resetOk then rc + 1 else rc
  let inv := if doReset then 1 else 0
  let resetTrace := if doReset then [Cmd.btReset] else []
  if e.bleSuccess && v.1 then
    (some true, rc', inv, Cmd.bleWifiOn :: List.replicate v.2 Cmd.iwlistScan)
  else
    let headTrace := Cmd.bleWifiOn ::
      (if e.bleSuccess then List.replicate 3 Cmd.iwlistScan else [])
    if decide (maxAttempts - 2 ≤ k) then
      if e.altSuccess then
        ((if e.altWifiOn then some true else none), rc', inv,
          headTrace ++ resetTrace ++ [Cmd.bleWifiOnAlt, Cmd.iwlistScan])
      else (none, rc', inv, headTrace ++ resetTrace ++ [Cmd.bleWifiOnAlt])
    else (none, rc', inv, headTrace ++ resetTrace)

/-- The activation retry loop over the per-attempt environments `envs`,
starting at attempt index `k` with successful-reset count `rc` and
invocation count `inv`. -/
def activateLoop (maxAttempts : Nat) :
    List AttemptEnv → Nat → Nat → Nat → ActResult
  | [], _, rc, inv => ⟨false, inv, rc, []⟩
  | e :: rest, k, rc, inv =>
    match attemptStep maxAttempts k rc e with
    | (some b, rc', dInv, tr) => ⟨b, inv + dInv, rc', tr⟩
    | (none, rc', dInv, tr) =>
      let r := activateLoop maxAttempts rest (k + 1) rc' (inv + dInv)
      ⟨r.ok, r.resetInvocations, r.resetCount, tr ++ r.trace⟩

/-- Embedding of `activate_gopro_wifi` (record_and_fetch_dual_v4.py lines
109-191): a pre-check scan returns immediately when the Wi-Fi is already
broadcasting; otherwise the retry loop runs over `envs` (the default call
has `max_attempts = 5` attempts). -/
def activate_gopro_wifi (wifiAlreadyOn : Bool) (envs : List AttemptEnv)
    (maxAttempts : Nat) : ActResult :=
  if wifiAlreadyOn then ⟨true, 0, 0, [Cmd.iwlistScan]⟩
  else
    let r := activateLoop maxAttempts envs 0 0 0
    ⟨r.ok, r.resetInvocations, r.resetCount, Cmd.iwlistScan :: r.trace⟩

/-- Embedding of `test_gopro_connection` (lines 293-309): up to 5 curl
probes, returning on the first HTTP 200.  `probe k` is the outcome of the
probe at loop index `k`. -/
def testLoop (probe : Nat → Bool) : Nat → Nat → Bool × List Cmd
  | 0, _ => (false, [])
  | remaining + 1, k =>
    if probe k then (true, [Cmd.httpProbe])
    else
      let r := testLoop probe remaining (k + 1)
      (r.1, Cmd.httpProbe :: r.2)

/-- `test_gopro_connection`: five probe attempts starting at index 0. -/
def test_gopro_connection (probe : Nat → Bool) : Bool × List Cmd :=
  testLoop probe 5 0

/-- Environment of one `connect_single_gopro` call. -/
structure ConnectEnv where
  interfaceExists : Bool      -- ip link show succeeds
  probe1 : Nat → Bool         -- outcomes of the initial probe attempts
  wifiAlreadyOn : Bool        -- activation pre-check scan
  attempts : List AttemptEnv  -- BLE activation attempt environments
  confExists : Bool           -- sudo test -f wpa_conf
  catOk : Bool                -- sudo cat wpa_conf succeeded
  ssidPresent : Bool          -- ssid already present in the config body
  supplicantOk : Bool         -- wpa_supplicant start succeeded
  ipShowOk : Bool             -- ip addr show succeeded
  hasSubnetIp : Bool          -- "inet 10.5.5." present in ip addr output
  probe2 : Nat → Bool         -- outcomes of the final probe attempts

/-- Embedding of `setup_wifi_interface` (lines 222-265): cleanup and
interface cycling, then idempotent wpa_supplicant config creation.  The
function always returns a (truthy) config path, so only its command trace
matters. -/
def setup_wifi_interface (env : ConnectEnv) : List Cmd :=
  [Cmd.pkillSupplicant, Cmd.pkillDhclient, Cmd.rmCtrlFile, Cmd.ipLinkDown,
   Cmd.ipAddrFlush, Cmd.ipLinkUp, Cmd.testConfExists]
  ++ (if env.confExists then [] else [Cmd.teeBaseConf])
  ++ [Cmd.catConf]
  ++ (if env.catOk && !env.ssidPresent then [Cmd.teeAppendNetwork] else [])

/-- Embedding of `connect_wifi` (lines 267-291): start the supplicant
(abort on failure), request a DHCP lease, fall back to a static address
when no 10.5.5.x address is observed, and install the host route. -/
def connect_wifi (env : ConnectEnv) : Bool × List Cmd :=
  if !env.supplicantOk then (false, [Cmd.wpaSupplicantStart])
  else
    (true,
      [Cmd.wpaSupplicantStart, Cmd.dhclientRun, Cmd.ipAddrShow]
      ++ (if env.ipShowOk && !env.hasSubnetIp then [Cmd.ipAddrAddStatic]
          else [])
      ++ [Cmd.ipRouteReplace])

/-- Embedding of `connect_single_gopro` (record_and_fetch_dual_v4.py lines
311-346): interface existence check, fast HTTP probe, then BLE activation,
interface setup, Wi-Fi association and the final probe. -/
def connect_single_gopro (env : ConnectEnv) : Bool × List Cmd :=
  let pre := [Cmd.ipLinkShow]
  if !env.interfaceExists then (false, pre)
  else
    let t1 := test_gopro_connection env.probe1
    if t1.1 then (true, pre ++ t1.2)
    else
      let act := activate_gopro_wifi env.wifiAlreadyOn env.attempts 5
      if !act.ok then (false, pre ++ t1.2 ++ act.trace)
      else
        let setupTr := setup_wifi_interface env
        let w := connect_wifi env
        if !w.1 then (false, pre ++ t1.2 ++ act.trace ++ setupTr ++ w.2)
        else
          let t2 := test_gopro_connection env.probe2
          (t2.1, pre ++ t1.2 ++ act.trace ++ setupTr ++ w.2 ++ t2.2)

/-! ## Connection routine, manager variant (gopro_connection_manager.py)

`GoProConnectionManager.connect_single_gopro` (lines 265-315) has no fast
path: after the interface existence query it unconditionally resets the
Bluetooth adapter, resets the network interface, runs BLE activation with
its own reset-between-retries loop, creates the supplicant config (pure
file I/O, no commands), associates, assigns addressing and a route, and
only then probes HTTP. -/

/-- `GoProConnectionManager.reset_network_interface` (lines 137-164):
process cleanup, conditional control-file removal, then interface
down/flush/up; the two `check=True` `ip link set` calls can fail. -/
def reset_network_interface (ctrlFileExists linkDownOk linkUpOk : Bool) :
    Bool × List Cmd :=
  let pre := [Cmd.pkillSupplicant, Cmd.pkillDhclient]
    ++ (if ctrlFileExists then [Cmd.rmCtrlFile] else [])
  if !linkDownOk then (false, pre ++ [Cmd.ipLinkDown])
  else if !linkUpOk then
    (false, pre ++ [Cmd.ipLinkDown, Cmd.ipAddrFlush, Cmd.ipLinkUp])
  else (true, pre ++ [Cmd.ipLinkDown, Cmd.ipAddrFlush, Cmd.ipLinkUp])

/-- `GoProConnectionManager.activate_gopro_wifi_ble` (lines 58-98): up to
`max_retries` BLE commands (`attempts` holds each attempt's outcome, 3
entries for the default call), returning on the first success, with a
Bluetooth reset after every failed non-final attempt. -/
def mgrBleLoop : List Bool → Bool × List Cmd
  | [] => (false, [])
  | ok :: rest =>
    if ok then (true, [Cmd.bleWifiOn])
    else if rest.isEmpty then (false, [Cmd.bleWifiOn])
    else
      let r := mgrBleLoop rest
      (r.1, Cmd.bleWifiOn :: Cmd.btReset :: r.2)

/-- Environment of one `GoProConnectionManager.connect_single_gopro`
call. -/
structure MgrConnectEnv where
  interfaceExists : Bool      -- ip link show succeeds
  btResetOk : Bool            -- reset_bluetooth result
  ctrlFileExists : Bool       -- /var/run/wpa_supplicant/<iface> present
  linkDownOk : Bool
  linkUpOk : Bool
  bleAttempts : List Bool     -- BLE attempt outcomes (3 for the default)
  confOk : Bool               -- create_wpa_supplicant_config returned a path
  supplicantOk : Bool         -- wpa_supplicant start succeeded
  hasSubnetIp : Bool          -- "inet 10.5.5." seen in ip addr output
  addStaticOk : Bool          -- static address assignment succeeded
  probe : Nat → Bool          -- final HTTP probe outcomes

/-- Embedding of `GoProConnectionManager.connect_single_gopro`
(gopro_connection_manager.py lines 265-315): interface query, then the
unconditional Bluetooth reset and interface reset, BLE activation,
supplicant config (file I/O only), association, addressing, route, and
finally the HTTP probe loop — there is no fast path. -/
def mgr_connect_single_gopro (env : MgrConnectEnv) : Bool × List Cmd :=
  if !env.interfaceExists then (false, [Cmd.ipLinkShow])
  else if !env.btResetOk then (false, [Cmd.ipLinkShow, Cmd.btReset])
  else
    let ir := reset_network_interface env.ctrlFileExists env.linkDownOk env.linkUpOk
    let pre := Cmd.ipLinkShow :: Cmd.btReset :: ir.2
    if !ir.1 then (false, pre)
    else
      let ble := mgrBleLoop env.bleAttempts
      let pre2 := pre ++ ble.2
      if !ble.1 then (false, pre2)
      else if !env.confOk then (false, pre2)
      else
        let w := if !env.supplicantOk then (false, [Cmd.wpaSupplicantStart])
          else (true, [Cmd.wpaSupplicantStart, Cmd.dhclientRun])
        let pre3 := pre2 ++ w.2
        if !w.1 then (false, pre3)
        else
          let ai := if env.hasSubnetIp then (true, [Cmd.ipAddrShow])
            else if env.addStaticOk then
              (true, [Cmd.ipAddrShow, Cmd.ipAddrAddStatic])
            else (false, [Cmd.ipAddrShow, Cmd.ipAddrAddStatic])
          let pre4 := pre3 ++ ai.2
          if !ai.1 then (false, pre4)
          else
            let t := testLoop env.probe 5 0
            (t.1, pre4 ++ [Cmd.ipRouteReplace] ++ t.2)

/-! ## Media list JSON shape

The camera's media list is parsed with `json.loads` and then navigated as
`media.get("media", [])[0].get("fs", [])`, filtering entries whose
`.get("n", "")` lowercased ends in ".mp4".  Optional fields model
`.get` with a default; a `none` at the top models a `json.loads` failure. -/

/-- One file descriptor of the media list ("fs" entry). -/
structure FileEntry where
  n : Option String
deriving DecidableEq, Repr

/-- One media directory ("media" entry) with its "fs" file list. -/
structure MediaDir where
  fs : Option (List FileEntry)
deriving DecidableEq, Repr

/-- The parsed media list document. -/
structure MediaJson where
  media : Option (List MediaDir)
deriving DecidableEq, Repr

/-- The filter `f.get("n", "").lower().endswith(".mp4")`, over the
character list (Python semantics: lowercase, then suffix test). -/
def isMp4Entry (f : FileEntry) : Bool :=
  List.isSuffixOf ".mp4".data ((f.n.getD "").data.map Char.toLower)

/-- Python exceptions the media-lookup body can raise. -/
inductive PyError
  | jsonDecodeError   -- json.loads on an unparseable body
  | indexError        -- [0] on an empty "media" array
  | keyError          -- ["n"] on an entry without the key
deriving DecidableEq, Repr

/-- The body of the `try:` block of `get_latest_video`
(record_and_fetch_dual_v4.py lines 435-439), as an exception-transparent
computation: `json.loads`, `media.get("media", [])[0].get("fs", [])`,
mp4 filter, then `videos[-1]["n"] if videos else None`. -/
def get_latest_video_body (parsed : Option MediaJson) :
    Except PyError (Option String) :=
  match parsed with
  | none => .error .jsonDecodeError
  | some m =>
    match (m.media.getD []).head? with
    | none => .error .indexError
    | some first =>
      let videos := (first.fs.getD []).filter isMp4Entry
      match videos.getLast? with
      | none => .ok none
      | some v =>
        match v.n with
        | none => .error .keyError
        | some nm => .ok (some nm)

/-- Embedding of `GoProController.get_latest_video`
(record_and_fetch_dual_v4.py lines 429-441): a failed curl returns `None`;
the parsing body runs under `try: ... except: return None`, so every
raised exception also yields `None`. -/
def get_latest_video (curlOk : Bool) (parsed : Option MediaJson) :
    Option String :=
  if !curlOk then none
  else
    match get_latest_video_body parsed with
    | .error _ => none
    | .ok v => v

/-! ## Capture aggregation (record_and_fetch_dual_v4.py, record_and_fetch_all)

The download phase submits a download task only for a device whose
`get_latest_video()` returned a truthy filename; `downloaded_files` gets an
entry only for a truthy `download_video` result (the local path).  Lines
610-613: a combination is queued iff `len(downloaded_files) == 2`. -/

/-- Per-device fetch environment of one capture job: the media lookup
result and the `download_video` outcome (`some localPath` for a truthy
return, `none` for `False` or a raised exception). -/
structure DeviceFetchEnv where
  latestVideo : Option String
  downloadResult : Option String
deriving DecidableEq, Repr

/-- The `downloaded_files` entry a device contributes: present iff a
download task was submitted for it (truthy filename) and the task returned
a truthy local path. -/
def downloaded_file (e : DeviceFetchEnv) : Option String :=
  match e.latestVideo with
  | none => none
  | some f => if f = "" then none else e.downloadResult

/-- One queued combination task `(video1, video2, output)`. -/
structure CombTask where
  video1 : String
  video2 : String
  output : String
deriving DecidableEq, Repr

/-- Embedding of the combination-enqueue step of `record_and_fetch_all`
(record_and_fetch_dual_v4.py lines 610-613): the list of tasks put on the
combination queue by one capture job over the two devices gopro3 and
gopro1.  A task is queued iff `downloaded_files` has both entries. -/
def record_and_fetch_queued (e3 e1 : DeviceFetchEnv)
    (combinedDir timestamp : String) : List CombTask :=
  match downloaded_file e1, downloaded_file e3 with
  | some p1, some p3 =>
    [⟨p1, p3, combinedDir ++ "/" ++ timestamp ++ "_Combined.mp4"⟩]
  | _, _ => []

/-- Environment of one `GoProController.download_video` call
(record_and_fetch_dual_v4.py lines 443-469): the `filename` argument, free
space, the download curl outcome, whether the local file exists afterwards
and its size (which that variant computes only for the log line). -/
structure V4DownloadEnv where
  filename : Option String
  availableGb : ℚ
  curlOk : Bool
  fileExists : Bool
  fileSizeMb : ℚ
deriving DecidableEq, Repr

/-- Observable outcome of `download_video`: the returned value (`some
localPath`, the truthy success, or `none` for `False`), whether the remote
delete was issued, and whether a local file remains at the destination. -/
structure V4DownloadOutcome where
  result : Option String
  remoteDeleteIssued : Bool
  localFileRemains : Bool
deriving DecidableEq, Repr

/-- Embedding of `GoProController.download_video`
(record_and_fetch_dual_v4.py lines 443-469): falsy filename or low space
abort; after a successful curl with an existing file the size is computed
and printed, the remote delete is issued unconditionally — there is no
minimum-size verification — and the local path is returned; on failure
nothing is cleaned up (a leftover file at the destination stays). -/
def download_video (env : V4DownloadEnv) (downloadDir camName ts : String) :
    V4DownloadOutcome :=
  match env.filename with
  | none => ⟨none, false, false⟩
  | some f =>
    if f = "" then ⟨none, false, false⟩
    else if env.availableGb < 1/2 then ⟨none, false, false⟩
    else if env.curlOk && env.fileExists then
      ⟨some (downloadDir ++ "/" ++ ts ++ "_" ++ camName ++ "_" ++ f), true, true⟩
    else ⟨none, false, env.fileExists⟩

/-- A queued combination job (video1, video2, output, timestamp), the
4-tuple put on the v3 combination queue. -/
structure CombinationJob where
  video1Path : String
  video2Path : String
  outputPath : String
  timestamp : String
deriving DecidableEq, Repr

/-- Environment of the combination-enqueue block of the v3
`record_and_fetch_all` (record_and_fetch_dual_v3.py lines 1156-1190):
the `downloaded_files` entries for the two devices (present iff that
device's download returned `True` and the post-download directory listing
found a file), whether the block raises (makedirs/getsize), the free-space
estimate in bytes, and the two downloaded files' sizes. -/
structure V3QueueEnv where
  entry1 : Option String
  entry3 : Option String
  blockRaises : Bool
  availableBytes : Nat
  size1 : Nat
  size3 : Nat
deriving DecidableEq, Repr

/-- Embedding of the v3 enqueue block (record_and_fetch_dual_v3.py lines
1156-1190): with both `downloaded_files` entries present it estimates
space and, when `available_space < max_file_size * 2`, skips the
combination entirely; only otherwise is the job queued. -/
def v3_record_and_fetch_queued (env : V3QueueEnv)
    (combinedDir timestamp : String) : List CombinationJob :=
  match env.entry1, env.entry3 with
  | some p1, some p3 =>
    if env.blockRaises then []
    else if env.availableBytes < 2 * max env.size1 env.size3 then []
    else [⟨p1, p3,
      combinedDir ++ "/" ++ timestamp ++ "_Combined_GoPro1+GoPro3.mp4",
      timestamp⟩]
  | _, _ => []

/-! ## Download with integrity check
(record_and_fetch_dual_v3.py, download_latest_clip_with_timestamp) -/

/-- Environment of one `download_latest_clip_with_timestamp` call: free
space, the media-list result, the download curl outcome, whether the local
file exists afterwards and its size, and the remote-delete outcome. -/
structure DownloadEnv where
  availableGb : ℚ
  mediaList : Option MediaJson
  curlOk : Bool
  fileExists : Bool
  fileSizeMb : ℚ
  deleteOk : Bool
deriving DecidableEq, Repr

/-- Observable outcome of one per-device download: the boolean returned,
whether the remote delete command was issued on the device, and whether a
local file remains at the destination path. -/
structure DownloadOutcome where
  succeeded : Bool
  remoteDeleteIssued : Bool
  localFileRemains : Bool
deriving DecidableEq, Repr

/-- Embedding of `download_latest_clip_with_timestamp`
(record_and_fetch_dual_v3.py lines 978-1059).  Space below 0.5 GB aborts;
a missing media list, an empty "media" array (IndexError caught by the
outer `except`) or an empty mp4 list return `False`; after a successful
curl with an existing file, a size above 0.1 MB leads to the remote delete
and `True`, an undersized file is removed locally with no remote delete; a
failed curl removes any leftover file. -/
def download_latest_clip_with_timestamp (env : DownloadEnv) :
    DownloadOutcome :=
  if env.availableGb < 1/2 then ⟨false, false, false⟩
  else
    match env.mediaList with
    | none => ⟨false, false, false⟩
    | some m =>
      match (m.media.getD []).head? with
      | none => ⟨false, false, false⟩
      | some first =>
        match ((first.fs.getD []).filter isMp4Entry).getLast? with
        | none => ⟨false, false, false⟩
        | some _ =>
          if env.curlOk && env.fileExists then
            if 1/10 < env.fileSizeMb then ⟨true, true, true⟩
            else ⟨false, false, false⟩
          else ⟨false, false, false⟩

/-! ## Media timestamp parsing (record_and_fetch.py lines 74-88)

The parser dispatches on the raw string: a trailing "Z" goes to
`datetime.fromisoformat` after replacing "Z" with "+00:00"; otherwise a
string of length at least 19 whose character at index 8 is 'T' goes to
`strptime` with the compact format; otherwise a digit string goes to
`datetime.fromtimestamp`; each parse failure, and any other string, yields
the current time.  The library parsers are oracle parameters returning
`Option DT`. -/

/-- Python `ts_raw.endswith("Z")`: the last character is 'Z'. -/
def pyEndsWithZ (s : String) : Bool :=
  s.data.getLast? == some 'Z'

/-- Python `ts_raw.replace("Z", "+00:00")`: every 'Z' character is
expanded to "+00:00". -/
def pyReplaceZ (s : String) : String :=
  ⟨s.data.flatMap (fun c => if c = 'Z' then "+00:00".data else [c])⟩

/-- Python `str.isdigit` restricted to ASCII digits (the forms the camera
emits): nonempty and all characters are digits. -/
def pyIsDigit (s : String) : Bool :=
  !s.data.isEmpty && s.data.all Char.isDigit

/-- Python `int(ts_raw)` on a digit string. -/
def pyToNat (s : String) : Nat :=
  s.data.foldl (fun acc c => acc * 10 + (c.toNat - 48)) 0

/-- The guard of the compact branch: `len(ts_raw) >= 19 and
ts_raw[8] == "T"`. -/
def compactGuard (s : String) : Bool :=
  decide (19 ≤ s.length) && (s.data.getD 8 ' ' == 'T')

/-- Embedding of the timestamp parsing block (record_and_fetch.py lines
75-88) over the stdlib parser oracles `isoParse` (`fromisoformat`),
`compactParse` (`strptime` with "%Y%m%dT%H%M%S%z") and `epochParse`
(`fromtimestamp`); `now` is `datetime.now(timezone.utc)`. -/
def parse_media_timestamp {DT : Type} (isoParse compactParse : String → Option DT)
    (epochParse : Nat → Option DT) (now : DT) (tsRaw : String) : DT :=
  if pyEndsWithZ tsRaw then
    (isoParse (pyReplaceZ tsRaw)).getD now
  else if compactGuard tsRaw then
    (compactParse tsRaw).getD now
  else if pyIsDigit tsRaw then
    (epochParse (pyToNat tsRaw)).getD now
  else now

/-- The raw timestamp selection `latest.get("d") or latest.get("mod") or ""`
with Python truthiness (an empty string is falsy). -/
def tsRawOf (d mod : Option String) : String :=
  match d with
  | some s => if s = "" then (mod.getD "") else s
  | none => mod.getD ""

/-- The compact-branch parser of the record_and_fetch_dual.py variant
(lines 249-253): `strptime(ts_raw, "%Y-%m-%dT%H%:M%:S%z")`.  The format
string is malformed — `%:` is not a valid strptime directive, so CPython
raises ValueError on every input (caught, leaving `dt = None`); the parse
therefore succeeds on no string. -/
def dual_compact_strptime {DT : Type} : String → Option DT :=
  fun _ => none

/-- Embedding of the timestamp parsing block of
`GoProController.download_latest_clip` (record_and_fetch_dual.py lines
241-261): same guards as `parse_media_timestamp`, but the compact branch
calls strptime with the malformed format and so always falls back to the
current time. -/
def parse_media_timestamp_dual {DT : Type} (isoParse : String → Option DT)
    (epochParse : Nat → Option DT) (now : DT) (tsRaw : String) : DT :=
  if pyEndsWithZ tsRaw then
    (isoParse (pyReplaceZ tsRaw)).getD now
  else if compactGuard tsRaw then
    ((dual_compact_strptime : String → Option DT) tsRaw).getD now
  else if pyIsDigit tsRaw then
    (epochParse (pyToNat tsRaw)).getD now
  else now

/-! ## Combination queue worker (record_and_fetch_dual_v3.py lines 693-737)

The worker is one background thread looping: dequeue, combine to
completion (success or failure), `task_done`, loop; a `None` sentinel stops
it.  `start_combination_worker` spawns a thread only when none is alive,
so at most one worker consumes the queue; the sequential loop is embedded
as a trace of start/finish events over the dequeued items. -/

/-- Processing events emitted by the worker: begin processing a job, and
complete it with the `combine_videos` outcome. -/
inductive WorkerEvent
  | jobStart (j : CombinationJob)
  | jobFinish (j : CombinationJob) (ok : Bool)
deriving DecidableEq, Repr

/-- Embedding of `video_combination_worker` as its event trace: `items` is
the sequence of values dequeued (a `none` is the stop sentinel), `res k`
the `combine_videos` outcome of the `k`-th processed job.  Each dequeued
job is processed to completion before the next dequeue. -/
def video_combination_worker :
    List (Option CombinationJob) → (Nat → Bool) → Nat → List WorkerEvent
  | [], _, _ => []
  | none :: _, _, _ => []
  | some j :: rest, res, k =>
    .jobStart j :: .jobFinish j (res k) :: video_combination_worker rest res (k + 1)

/-- The strictly sequential FIFO trace over a job list: jobs in order,
each finished before the next starts.  Stated from the spec's words, to be
compared with the worker's trace. -/
def fifoTrace : List CombinationJob → (Nat → Bool) → Nat → List WorkerEvent
  | [], _, _ => []
  | j :: rest, res, k =>
    .jobStart j :: .jobFinish j (res k) :: fifoTrace rest res (k + 1)

/-- The jobs the worker dequeues before the sentinel, in queue order. -/
def dequeuedJobs (items : List (Option CombinationJob)) :
    List CombinationJob :=
  (items.takeWhile Option.isSome).filterMap id

/-- `start_combination_worker` (lines 730-737): a new worker thread is
spawned iff no worker thread is currently alive. -/
def start_combination_worker (workerAlive : Bool) : Bool :=
  !workerAlive

/-! ## Claim theorems -/

/-- Counterexample to claim C1: in the v3 `record_and_fetch_all`, both
devices' downloads succeeded (both `downloaded_files` entries present),
yet the enqueue block skips the combination because the free-space
estimate (1,000,000 bytes) is below twice the largest file (900,000
bytes) — the combination queue receives zero new jobs, refuting the
claimed iff at the v3 anchor. -/
theorem c1_v3_space_skip_counterexample :
    ((⟨some "/clips/GoPro1/a.mp4", some "/clips/GoPro3/b.mp4", false,
        1000000, 800000, 900000⟩ : V3QueueEnv).entry1.isSome = true
      ∧ (⟨some "/clips/GoPro1/a.mp4", some "/clips/GoPro3/b.mp4", false,
        1000000, 800000, 900000⟩ : V3QueueEnv).entry3.isSome = true)
    ∧ v3_record_and_fetch_queued
        ⟨some "/clips/GoPro1/a.mp4", some "/clips/GoPro3/b.mp4", false,
          1000000, 800000, 900000⟩ "/clips/Combined" "ts" = [] := by
  decide

/-- Claim C1 (amended): in the v4 `record_and_fetch_all` a combination
task is enqueued if and only if both devices' downloads succeeded; in the
v3 `record_and_fetch_all` both downloads succeeding is necessary but not
sufficient — the job is enqueued iff both entries are present, the block
does not raise, and the free-space estimate is at least twice the largest
downloaded file.  In both variants at least one failed download means the
combination queue receives zero new jobs. -/
theorem c1_combination_enqueue_per_variant :
    (∀ (e3 e1 : DeviceFetchEnv) (dir ts : String),
      ((record_and_fetch_queued e3 e1 dir ts).length = 1
        ↔ (downloaded_file e3).isSome = true ∧ (downloaded_file e1).isSome = true)
      ∧ ((downloaded_file e3).isSome = false ∨ (downloaded_file e1).isSome = false
        → record_and_fetch_queued e3 e1 dir ts = []))
    ∧ (∀ (env : V3QueueEnv) (dir ts : String),
      ((v3_record_and_fetch_queued env dir ts).length = 1
        ↔ env.entry1.isSome = true ∧ env.entry3.isSome = true
          ∧ env.blockRaises = false
          ∧ ¬ env.availableBytes < 2 * max env.size1 env.size3)
      ∧ (env.entry1.isSome = false ∨ env.entry3.isSome = false
        → v3_record_and_fetch_queued env dir ts = [])) := by
  constructor
  · intro e3 e1 dir ts
    cases h1 : downloaded_file e1 <;> cases h3 : downloaded_file e3 <;>
      simp [record_and_fetch_queued, h1, h3]
  · intro env dir ts
    cases h1 : env.entry1 <;> cases h3 : env.entry3 <;>
      cases hb : env.blockRaises <;>
        by_cases hs : env.availableBytes < 2 * max env.size1 env.size3 <;>
          simp [v3_record_and_fetch_queued, h1, h3, hb, hs]

/-- Witness for C1: a failed gopro1 download yields zero queued jobs in the
v4 variant, and a missing gopro1 entry yields zero queued jobs in v3. -/
theorem c1_combination_enqueue_per_variant_witness :
    record_and_fetch_queued ⟨some "GOPR0001.MP4", some "/clips/a.mp4"⟩
      ⟨some "GOPR0002.MP4", none⟩ "/clips/Combined" "2024-01-01_00-00-00" = []
    ∧ v3_record_and_fetch_queued ⟨none, some "/clips/GoPro3/b.mp4", false, 0, 0, 0⟩
      "/clips/Combined" "ts" = [] :=
  ⟨(c1_combination_enqueue_per_variant.1 _ _ _ _).2 (Or.inr (by decide)),
   (c1_combination_enqueue_per_variant.2 _ _ _).2 (Or.inl (by decide))⟩

/-- Claim C6: the backoff wait before activation attempt `n`
(`min(3 * 1.5^n + 0.5*n, 15)`) is non-decreasing in `n` for `n ≥ 1`. -/
theorem c6_backoff_delay_monotone (n : Nat) (h : 1 ≤ n) :
    backoff_delay n ≤ backoff_delay (n + 1) := by
  unfold backoff_delay
  apply min_le_min _ le_rfl
  have h0 := h
  have h1 : (3/2 : ℚ) ^ n ≤ (3/2 : ℚ) ^ (n + 1) :=
    pow_le_pow_right₀ (by norm_num) (Nat.le_succ n)
  have h2 : (n : ℚ) ≤ ((n + 1 : Nat) : ℚ) := by
    push_cast; linarith
  nlinarith

/-- Witness for C6 at `n = 1`. -/
theorem c6_backoff_delay_monotone_witness :
    1 ≤ 1 ∧ backoff_delay 1 ≤ backoff_delay 2 :=
  ⟨le_rfl, c6_backoff_delay_monotone 1 le_rfl⟩

/-- Claim C9: the single combination worker processes dequeued jobs in
strict FIFO order — its event trace equals the sequential trace in which
each job is finished (success or failure) before the next starts; in
particular for jobs enqueued J1, J2, J3 the trace is exactly
start/finish of J1, then of J2, then of J3; and a new worker thread is
spawned only when none is alive. -/
theorem c9_worker_fifo_order :
    (∀ (items : List (Option CombinationJob)) (res : Nat → Bool) (k : Nat),
      video_combination_worker items res k = fifoTrace (dequeuedJobs items) res k)
    ∧ (∀ (j1 j2 j3 : CombinationJob) (res : Nat → Bool),
      video_combination_worker [some j1, some j2, some j3, none] res 0 =
        [.jobStart j1, .jobFinish j1 (res 0), .jobStart j2, .jobFinish j2 (res 1),
         .jobStart j3, .jobFinish j3 (res 2)])
    ∧ (∀ alive : Bool, start_combination_worker alive = !alive) := by
  refine ⟨?_, fun _ _ _ _ => rfl, fun _ => rfl⟩
  intro items
  induction items with
  | nil => intro res k; rfl
  | cons head rest ih =>
    intro res k
    cases head with
    | none => rfl
    | some j =>
      have hd : dequeuedJobs (some j :: rest) = j :: dequeuedJobs rest := by
        simp [dequeuedJobs, List.takeWhile]
      simp only [video_combination_worker, hd, fifoTrace]
      rw [ih]
      rfl

/-- Claim C10: the media-list lookup never propagates an exception — an
unparseable body, an empty or missing "media" array (where indexing `[0]`
raises) and a file list without mp4 entries all yield `None`, as does a
failed curl, so a malformed device response cannot abort the capture job. -/
theorem c10_media_lookup_never_raises (curlOk : Bool) (parsed : Option MediaJson) :
    (parsed = none →
      get_latest_video curlOk parsed = none
      ∧ get_latest_video_body parsed = .error .jsonDecodeError)
    ∧ (∀ m, parsed = some m → m.media.getD [] = [] →
      get_latest_video curlOk parsed = none
      ∧ get_latest_video_body parsed = .error .indexError)
    ∧ (∀ m first, parsed = some m → (m.media.getD []).head? = some first →
      (first.fs.getD []).filter isMp4Entry = [] →
      get_latest_video curlOk parsed = none)
    ∧ (curlOk = false → get_latest_video curlOk parsed = none) := by
  refine ⟨?_, ?_, ?_, ?_⟩
  · rintro rfl
    cases curlOk <;> simp [get_latest_video, get_latest_video_body]
  · rintro m rfl hx
    cases curlOk <;> simp [get_latest_video, get_latest_video_body, hx]
  · rintro m first rfl hhead hfilter
    cases curlOk <;>
      simp [get_latest_video, get_latest_video_body, hhead, hfilter]
  · rintro rfl
    simp [get_latest_video]

/-- Witness for C10: a response whose "media" array is empty raises an
IndexError in the body, and the lookup returns `None`. -/
theorem c10_media_lookup_never_raises_witness :
    get_latest_video true (some ⟨some []⟩) = none
    ∧ get_latest_video_body (some ⟨some []⟩) = .error .indexError :=
  (c10_media_lookup_never_raises true (some ⟨some []⟩)).2.1 ⟨some []⟩ rfl rfl

/-- Auxiliary case analysis: every run of
`download_latest_clip_with_timestamp` either returns the all-false outcome
or returns the fully successful outcome, the latter only with a successful
curl, an existing file, and a size above the threshold. -/
theorem download_outcome_cases (env : DownloadEnv) :
    download_latest_clip_with_timestamp env = ⟨false, false, false⟩
    ∨ (download_latest_clip_with_timestamp env = ⟨true, true, true⟩
      ∧ env.curlOk = true ∧ env.fileExists = true ∧ 1/10 < env.fileSizeMb) := by
  unfold download_latest_clip_with_timestamp
  split
  · exact Or.inl rfl
  · split
    · exact Or.inl rfl
    · split
      · exact Or.inl rfl
      · split
        · exact Or.inl rfl
        · split
          · split
            · rename_i hc hs
              exact Or.inr ⟨rfl, (Bool.and_eq_true _ _ ▸ hc).1,
                (Bool.and_eq_true _ _ ▸ hc).2, hs⟩
            · exact Or.inl rfl
          · exact Or.inl rfl

/-- Counterexample to claim C2: in the v4 `download_video`, an undersized
(0.01 MB, below the 0.1 MB threshold) downloaded file still triggers the
remote delete, is kept locally, and the download is reported successful —
there is no size verification at the v4 anchor. -/
theorem c2_v4_unverified_delete_counterexample :
    (⟨some "GOPR0001.MP4", 10, true, true, 1/100⟩ : V4DownloadEnv).fileSizeMb ≤ 1/10
    ∧ (download_video ⟨some "GOPR0001.MP4", 10, true, true, 1/100⟩
        "/clips/GoPro1" "GoPro1" "ts").remoteDeleteIssued = true
    ∧ (download_video ⟨some "GOPR0001.MP4", 10, true, true, 1/100⟩
        "/clips/GoPro1" "GoPro1" "ts").localFileRemains = true
    ∧ (download_video ⟨some "GOPR0001.MP4", 10, true, true, 1/100⟩
        "/clips/GoPro1" "GoPro1" "ts").result.isSome = true := by
  refine ⟨by norm_num, ?_, ?_, ?_⟩ <;>
    simp [download_video] <;> norm_num

/-- Claim C2 (amended): in the v3 `download_latest_clip_with_timestamp`
the remote delete is issued only when the curl succeeded, the local file
exists and its size exceeds the 0.1 MB threshold, and an undersized
download is removed locally, not deleted remotely, and reported failed
for that device; in the v4 `download_video` the remote delete is issued
exactly when the filename is truthy, space suffices, the curl succeeded
and the file exists — the size is computed only for logging and never
verified. -/
theorem c2_remote_delete_per_variant :
    (∀ env : DownloadEnv,
      ((download_latest_clip_with_timestamp env).remoteDeleteIssued = true →
        env.curlOk = true ∧ env.fileExists = true ∧ 1/10 < env.fileSizeMb)
      ∧ (env.curlOk = true → env.fileExists = true → env.fileSizeMb ≤ 1/10 →
        (download_latest_clip_with_timestamp env).localFileRemains = false
        ∧ (download_latest_clip_with_timestamp env).remoteDeleteIssued = false
        ∧ (download_latest_clip_with_timestamp env).succeeded = false))
    ∧ (∀ (env : V4DownloadEnv) (dir nm ts : String),
      (download_video env dir nm ts).remoteDeleteIssued = true
        ↔ (∃ f, env.filename = some f ∧ f ≠ "")
          ∧ ¬ env.availableGb < 1/2
          ∧ env.curlOk = true ∧ env.fileExists = true) := by
  constructor
  · intro env
    constructor
    · intro hdel
      rcases download_outcome_cases env with h | ⟨_, hc, hf, hs⟩
      · rw [h] at hdel
        simp at hdel
      · exact ⟨hc, hf, hs⟩
    · intro _ _ hsz
      rcases download_outcome_cases env with h | ⟨_, _, _, hs⟩
      · rw [h]
        exact ⟨rfl, rfl, rfl⟩
      · exact absurd hs (not_lt.mpr hsz)
  · intro env dir nm ts
    cases hf : env.filename with
    | none => simp [download_video, hf]
    | some f =>
      simp only [download_video, hf]
      split_ifs with h1 h2 h3
      · simp [h1]
      · constructor
        · intro h
          simp at h
        · rintro ⟨_, hnlt, _, _⟩
          exact absurd h2 hnlt
      · rw [Bool.and_eq_true] at h3
        constructor
        · intro _
          exact ⟨⟨f, rfl, h1⟩, h2, h3.1, h3.2⟩
        · intro _
          rfl
      · rw [Bool.and_eq_true] at h3
        constructor
        · intro h
          simp at h
        · rintro ⟨_, _, hc, hx⟩
          exact absurd ⟨hc, hx⟩ h3

/-- Witness for C2: the v3 variant discards an undersized (0.05 MB) file,
issues no remote delete and reports failure; the v4 variant issues the
delete for the same-shaped download with a 0.01 MB file. -/
theorem c2_remote_delete_per_variant_witness :
    ((download_latest_clip_with_timestamp
        ⟨5, some ⟨some [⟨some [⟨some "GOPR0001.MP4"⟩]⟩]⟩, true, true, 1/20, true⟩).localFileRemains = false
      ∧ (download_latest_clip_with_timestamp
        ⟨5, some ⟨some [⟨some [⟨some "GOPR0001.MP4"⟩]⟩]⟩, true, true, 1/20, true⟩).remoteDeleteIssued = false
      ∧ (download_latest_clip_with_timestamp
        ⟨5, some ⟨some [⟨some [⟨some "GOPR0001.MP4"⟩]⟩]⟩, true, true, 1/20, true⟩).succeeded = false)
    ∧ (download_video ⟨some "GOPR0001.MP4", 10, true, true, 1/100⟩
        "/clips/GoPro1" "GoPro1" "ts").remoteDeleteIssued = true :=
  ⟨(c2_remote_delete_per_variant.1 _).2 rfl rfl (by norm_num),
   (c2_remote_delete_per_variant.2 _ "/clips/GoPro1" "GoPro1" "ts").mpr
     ⟨⟨"GOPR0001.MP4", rfl, by decide⟩, by norm_num, rfl, rfl⟩⟩

/-- Concrete merge environment refuting claim C3: the first ffmpeg attempt
dies leaving a truncated file at the target output path, the later
attempts fail without touching it. -/
def c3Env : CombineEnv := ⟨true, true, .failKeep, .failNone, .failNone⟩

/-- Counterexample to claim C3: with all three merge attempts failing,
`combine_videos` reports failure but a truncated artifact remains at the
original target output path — every attempt writes directly to the target
path and no cleanup of it ever happens. -/
theorem c3_truncated_output_remains_counterexample :
    (c3Env.run1 ≠ .okRun ∧ c3Env.run2 ≠ .okRun ∧ c3Env.run3 ≠ .okRun)
    ∧ (combine_videos c3Env none).succeeded = false
    ∧ (combine_videos c3Env none).outFile = some .truncated := by
  decide

/-- Claim C3 (amended): if all three merge attempts fail, the job is
reported failed and the temporary concat file list is discarded, but the
attempts write directly to the target output path with no cleanup on
failure, so the target ends holding a truncated artifact whenever some
failing attempt wrote one (and is untouched only when no attempt wrote). -/
theorem c3_failure_leaves_attempt_residue (env : CombineEnv)
    (initial : Option OutFile)
    (hff : env.ffmpegInstalled = true) (hin : env.inputsExist = true)
    (h1 : env.run1 ≠ .okRun) (h2 : env.run2 ≠ .okRun) (h3 : env.run3 ≠ .okRun) :
    (combine_videos env initial).succeeded = false
    ∧ (combine_videos env initial).filelistDiscarded = true
    ∧ (combine_videos env initial).outFile =
      (if env.run1 = .failKeep ∨ env.run2 = .failKeep ∨ env.run3 = .failKeep
       then some .truncated else initial) := by
  rcases env with ⟨ff, ie, r1, r2, r3⟩
  simp only at hff hin h1 h2 h3
  subst hff hin
  cases r1 <;> cases r2 <;> cases r3 <;>
    simp_all [combine_videos, runFfmpegAt]

/-- Witness for the amended C3 at a concrete all-fail environment. -/
theorem c3_failure_leaves_attempt_residue_witness :
    (combine_videos c3Env none).succeeded = false
    ∧ (combine_videos c3Env none).filelistDiscarded = true
    ∧ (combine_videos c3Env none).outFile =
      (if c3Env.run1 = .failKeep ∨ c3Env.run2 = .failKeep ∨ c3Env.run3 = .failKeep
       then some .truncated else none) :=
  c3_failure_leaves_attempt_residue c3Env none rfl rfl
    (by decide) (by decide) (by decide)

/-- Counterexample to claim C4: the v4 `combine_videos_simple` attempts
only two methods — stream-copy concat then the balanced-preset re-encode —
so the claimed fixed three-method sequence (with the ultrafast filter-copy
tier second) is false at the v4 anchor: the tried sequence has length 2
and never contains the filter-copy method. -/
theorem c4_v4_two_methods_counterexample :
    (combine_videos_simple ⟨.failNone, .failNone⟩ none).methodsTried
        = [.concatDemuxer, .concatReencode]
    ∧ (combine_videos_simple ⟨.failNone, .failNone⟩ none).methodsTried.length = 2
    ∧ Method.concatFilterCopy ∉
        (combine_videos_simple ⟨.failNone, .failNone⟩ none).methodsTried := by
  decide

/-- Claim C4 (amended): the v3 `combine_videos` tries exactly the three
methods in source order — stream-copy concat demuxer, then concat filter
with the ultrafast preset, then full re-encode with the balanced fast
preset — stopping at the first success, and a successful attempt
overwrites whatever a prior attempt left at the target path; the v4
`combine_videos_simple` tries only two methods — stream-copy concat then
the balanced-preset re-encode — in that order with the same first-success
and overwrite semantics. -/
theorem c4_merge_methods_per_variant :
    (∀ (env : CombineEnv) (initial : Option OutFile),
      env.ffmpegInstalled = true → env.inputsExist = true →
      (combine_videos env initial).methodsTried = specMethodSequence env
      ∧ (env.run1 = .okRun →
        (combine_videos env initial).succeeded = true
        ∧ (combine_videos env initial).outFile = some (.complete .concatDemuxer))
      ∧ (env.run1 ≠ .okRun → env.run2 = .okRun →
        (combine_videos env initial).succeeded = true
        ∧ (combine_videos env initial).outFile = some (.complete .concatFilterCopy))
      ∧ (env.run1 ≠ .okRun → env.run2 ≠ .okRun → env.run3 = .okRun →
        (combine_videos env initial).succeeded = true
        ∧ (combine_videos env initial).outFile = some (.complete .concatReencode)))
    ∧ (∀ (env : V4CombineEnv) (initial : Option OutFile),
      (combine_videos_simple env initial).methodsTried =
        (if env.run1 = .okRun then [.concatDemuxer]
         else [.concatDemuxer, .concatReencode])
      ∧ (env.run1 = .okRun →
        (combine_videos_simple env initial).succeeded = true
        ∧ (combine_videos_simple env initial).outFile = some (.complete .concatDemuxer))
      ∧ (env.run1 ≠ .okRun → env.run2 = .okRun →
        (combine_videos_simple env initial).succeeded = true
        ∧ (combine_videos_simple env initial).outFile = some (.complete .concatReencode))) := by
  constructor
  · intro env initial hff hin
    rcases env with ⟨ff, ie, r1, r2, r3⟩
    simp only at hff hin
    subst hff hin
    cases r1 <;> cases r2 <;> cases r3 <;>
      simp_all [combine_videos, runFfmpegAt, specMethodSequence]
  · intro env initial
    rcases env with ⟨r1, r2⟩
    cases r1 <;> cases r2 <;>
      simp_all [combine_videos_simple, runFfmpegAt]

/-- Witness for C4: in v3 the demuxer attempt leaves a truncated file and
the filter-copy attempt succeeds, overwriting it; in v4 the demuxer fails
and the re-encode succeeds, likewise overwriting. -/
theorem c4_merge_methods_per_variant_witness :
    ((combine_videos ⟨true, true, .failKeep, .okRun, .failNone⟩ (some .truncated)).methodsTried
        = specMethodSequence ⟨true, true, .failKeep, .okRun, .failNone⟩
      ∧ (combine_videos ⟨true, true, .failKeep, .okRun, .failNone⟩ (some .truncated)).succeeded = true
      ∧ (combine_videos ⟨true, true, .failKeep, .okRun, .failNone⟩ (some .truncated)).outFile
          = some (.complete .concatFilterCopy))
    ∧ ((combine_videos_simple ⟨.failKeep, .okRun⟩ (some .truncated)).methodsTried
        = [.concatDemuxer, .concatReencode]
      ∧ (combine_videos_simple ⟨.failKeep, .okRun⟩ (some .truncated)).succeeded = true
      ∧ (combine_videos_simple ⟨.failKeep, .okRun⟩ (some .truncated)).outFile
          = some (.complete .concatReencode)) := by
  have h3 := c4_merge_methods_per_variant.1
    ⟨true, true, .failKeep, .okRun, .failNone⟩ (some .truncated) rfl rfl
  have h4 := c4_merge_methods_per_variant.2 ⟨.failKeep, .okRun⟩ (some .truncated)
  have h3b := h3.2.2.1 (by decide) rfl
  have h4b := h4.2.2 (by decide) rfl
  exact ⟨⟨h3.1, h3b.1, h3b.2⟩, ⟨by simpa using h4.1, h4b.1, h4b.2⟩⟩

/-- Concrete manager environment refuting claim C5: every external step
succeeds and the device answers every HTTP probe. -/
def c5MgrEnv : MgrConnectEnv :=
  { interfaceExists := true, btResetOk := true, ctrlFileExists := true,
    linkDownOk := true, linkUpOk := true, bleAttempts := [true, true, true],
    confOk := true, supplicantOk := true, hasSubnetIp := true,
    addStaticOk := true, probe := fun _ => true }

/-- Counterexample to claim C5: the manager's `connect_single_gopro` has
no fast path — for a device that answers every HTTP status probe it still
returns `true` only after issuing a Bluetooth reset, a radio activation
command and interface/supplicant commands, and the Bluetooth reset
precedes the first HTTP probe. -/
theorem c5_mgr_no_fast_path_counterexample :
    (mgr_connect_single_gopro c5MgrEnv).1 = true
    ∧ 0 < (mgr_connect_single_gopro c5MgrEnv).2.countP (fun c => c.isBtReset)
    ∧ 0 < (mgr_connect_single_gopro c5MgrEnv).2.countP (fun c => c.isActivation)
    ∧ 0 < (mgr_connect_single_gopro c5MgrEnv).2.countP (fun c => c.isIfaceOrSupplicant)
    ∧ ((mgr_connect_single_gopro c5MgrEnv).2.takeWhile
        (fun c => !(c == Cmd.httpProbe))).countP (fun c => c.isBtReset) = 1 := by
  decide

/-- Claim C5 (amended): in the v4 `connect_single_gopro`, a device already
answering its first HTTP status probe yields `true` with only the
read-only interface existence query and that single HTTP probe — no radio
activation command, no Bluetooth reset, and no interface-configuration or
supplicant command; in the `GoProConnectionManager` variant there is no
fast path — whenever the interface exists, the first command after the
interface query is always a Bluetooth reset, issued before any HTTP
probe. -/
theorem c5_fast_path_per_variant :
    (∀ env : ConnectEnv, env.interfaceExists = true → env.probe1 0 = true →
      connect_single_gopro env = (true, [Cmd.ipLinkShow, Cmd.httpProbe])
      ∧ (connect_single_gopro env).2.countP (fun c => c.isActivation) = 0
      ∧ (connect_single_gopro env).2.countP (fun c => c.isBtReset) = 0
      ∧ (connect_single_gopro env).2.countP (fun c => c.isIfaceOrSupplicant) = 0)
    ∧ (∀ env : MgrConnectEnv, env.interfaceExists = true →
      (mgr_connect_single_gopro env).2.take 2 = [Cmd.ipLinkShow, Cmd.btReset]) := by
  constructor
  · intro env hif hp
    have htest : test_gopro_connection env.probe1 = (true, [Cmd.httpProbe]) := by
      have hstep : test_gopro_connection env.probe1 =
          if env.probe1 0 then (true, [Cmd.httpProbe])
          else
            ((testLoop env.probe1 4 1).1,
              Cmd.httpProbe :: (testLoop env.probe1 4 1).2) := rfl
      rw [hstep, if_pos hp]
    have hmain : connect_single_gopro env = (true, [Cmd.ipLinkShow, Cmd.httpProbe]) := by
      simp [connect_single_gopro, hif, htest]
    refine ⟨hmain, ?_, ?_, ?_⟩ <;> rw [hmain] <;> rfl
  · intro env hif
    unfold mgr_connect_single_gopro
    rw [hif]
    simp only [Bool.not_true, Bool.false_eq_true, if_false]
    split_ifs <;> simp [List.take]

/-- Witness for C5: a v4 environment whose first probe succeeds runs the
fast path; a manager environment with the interface present starts with
the interface query and a Bluetooth reset. -/
theorem c5_fast_path_per_variant_witness :
    (connect_single_gopro
        { interfaceExists := true, probe1 := fun _ => true, wifiAlreadyOn := false,
          attempts := [], confExists := true, catOk := true, ssidPresent := true,
          supplicantOk := true, ipShowOk := true, hasSubnetIp := true,
          probe2 := fun _ => true } = (true, [Cmd.ipLinkShow, Cmd.httpProbe]))
    ∧ (mgr_connect_single_gopro c5MgrEnv).2.take 2 = [Cmd.ipLinkShow, Cmd.btReset] :=
  ⟨(c5_fast_path_per_variant.1 _ rfl rfl).1,
   c5_fast_path_per_variant.2 c5MgrEnv rfl⟩

/-- A true reset flag implies the counted-reset budget was open and the
attempt was not the final one. -/
theorem attemptResetFlag_bounds (maxA k rc : Nat) (e : AttemptEnv)
    (h : attemptResetFlag maxA k rc e = true) : rc < 2 ∧ k < maxA - 1 := by
  simp only [attemptResetFlag, Bool.and_eq_true, decide_eq_true_eq] at h
  exact ⟨h.1.2, h.2⟩

/-- The counter component of `attemptStep` in every branch. -/
theorem attemptStep_rc_proj (maxA k rc : Nat) (e : AttemptEnv) :
    (attemptStep maxA k rc e).2.1 =
      if attemptResetFlag maxA k rc e && e.resetOk then rc + 1 else rc := by
  unfold attemptStep
  dsimp only
  split_ifs <;> rfl

/-- The invocation-delta component of `attemptStep` in every branch. -/
theorem attemptStep_inv_proj (maxA k rc : Nat) (e : AttemptEnv) :
    (attemptStep maxA k rc e).2.2.1 =
      if attemptResetFlag maxA k rc e then 1 else 0 := by
  unfold attemptStep
  dsimp only
  split_ifs <;> rfl

/-- The activation loop keeps `bluetooth_reset_count` at or below 2. -/
theorem activateLoop_resetCount_le (maxA : Nat) (envs : List AttemptEnv) :
    ∀ k rc inv, rc ≤ 2 → (activateLoop maxA envs k rc inv).resetCount ≤ 2 := by
  induction envs with
  | nil =>
    intro k rc inv h
    simpa [activateLoop] using h
  | cons e rest ih =>
    intro k rc inv h
    have hrc := attemptStep_rc_proj maxA k rc e
    have hrc2 : (attemptStep maxA k rc e).2.1 ≤ 2 := by
      rw [hrc]
      by_cases hd : (attemptResetFlag maxA k rc e && e.resetOk) = true
      · rw [if_pos hd]
        have := (attemptResetFlag_bounds maxA k rc e
          ((Bool.and_eq_true _ _).mp hd).1).1
        omega
      · rw [if_neg hd]
        exact h
    rcases hstep : attemptStep maxA k rc e with ⟨ob, rc', dInv, tr⟩
    rw [hstep] at hrc2
    cases ob with
    | some b =>
      simp only [activateLoop, hstep]
      exact hrc2
    | none =>
      simp only [activateLoop, hstep]
      exact ih (k + 1) rc' (inv + dInv) hrc2

/-- The activation loop performs at most one reset invocation per attempt
whose index is below `maxAttempts - 1`; with the default `max_attempts = 5`
this bounds invocations by `4 - k` from attempt `k` on. -/
theorem activateLoop_inv_le (envs : List AttemptEnv) :
    ∀ k rc inv,
      (activateLoop 5 envs k rc inv).resetInvocations ≤ inv + (4 - k) := by
  induction envs with
  | nil =>
    intro k rc inv
    simp [activateLoop]
  | cons e rest ih =>
    intro k rc inv
    have hinv := attemptStep_inv_proj 5 k rc e
    have hbnd : (attemptStep 5 k rc e).2.2.1 = 0
        ∨ ((attemptStep 5 k rc e).2.2.1 = 1 ∧ k < 4) := by
      rw [hinv]
      by_cases hf : attemptResetFlag 5 k rc e = true
      · right
        rw [if_pos hf]
        exact ⟨rfl, (attemptResetFlag_bounds 5 k rc e hf).2⟩
      · left
        rw [if_neg hf]
    rcases hstep : attemptStep 5 k rc e with ⟨ob, rc', dInv, tr⟩
    rw [hstep] at hbnd
    simp only at hbnd
    cases ob with
    | some b =>
      simp only [activateLoop, hstep]
      omega
    | none =>
      simp only [activateLoop, hstep]
      have := ih (k + 1) rc' (inv + dInv)
      omega

/-- Per-attempt environment refuting claim C7: every BLE attempt fails as
connection-refused (always warranting a reset) and every Bluetooth reset
fails its verification, so `bluetooth_reset_count` never advances. -/
def c7AttemptEnv : AttemptEnv :=
  ⟨false, .refused, false, false, false, false, false, false⟩

/-- Counterexample to claim C7: in one default connection cycle
(`max_attempts = 5`), with all BLE attempts refused and every reset failing
verification, `reset_bluetooth_smart` is invoked 4 times — the per-cycle
reset count is not bounded by 2. -/
theorem c7_reset_cap_counterexample :
    (activate_gopro_wifi false (List.replicate 5 c7AttemptEnv) 5).resetInvocations = 4
    ∧ ¬ (activate_gopro_wifi false
          (List.replicate 5 c7AttemptEnv) 5).resetInvocations ≤ 2 := by
  decide

/-- Claim C7 (amended): in every single-device connection cycle with the
default 5 attempts, the number of Bluetooth resets counted against the
budget (invocations whose verification succeeded) never exceeds 2, and the
number of reset invocations never exceeds `max_attempts - 1 = 4` (at most
one per non-final attempt); a failed reset does not advance the counter,
which is what allows invocations to exceed 2. -/
theorem c7_reset_budget (wifiAlreadyOn : Bool) (envs : List AttemptEnv) :
    (activate_gopro_wifi wifiAlreadyOn envs 5).resetCount ≤ 2
    ∧ (activate_gopro_wifi wifiAlreadyOn envs 5).resetInvocations ≤ 4 := by
  cases wifiAlreadyOn with
  | true => simp [activate_gopro_wifi]
  | false =>
    simp only [activate_gopro_wifi, Bool.false_eq_true, if_false]
    exact ⟨activateLoop_resetCount_le 5 envs 0 0 0 (by omega),
      le_trans (activateLoop_inv_le envs 0 0 0) (by omega)⟩

/-- Counterexample to claim C8: the well-formed compact date-time
"20230115T123045+0000" satisfies the compact guard; record_and_fetch.py's
parser hands it to its strptime oracle and returns the parsed value, but
the record_and_fetch_dual.py variant — whose compact branch uses the
malformed format "%Y-%m-%dT%H%:M%:S%z" that parses nothing — returns the
current time for it, so that variant does not accept the compact form. -/
theorem c8_dual_compact_counterexample :
    compactGuard "20230115T123045+0000" = true
    ∧ @parse_media_timestamp Nat (fun _ => none)
        (fun s => if s = "20230115T123045+0000" then some 7 else none)
        (fun _ => none) 99 "20230115T123045+0000" = 7
    ∧ @parse_media_timestamp_dual Nat (fun _ => none) (fun _ => none) 99
        "20230115T123045+0000" = 99 := by
  decide

/-- Claim C8 (amended): record_and_fetch.py's parser accepts all three
timestamp forms — trailing-'Z' ISO via `fromisoformat` after the
replacement, compact date-time (length ≥ 19 with 'T' at index 8) via
`strptime`, and digit strings via `fromtimestamp` — returning the parsed
datetime in each case, and the current time whenever the input parses
under none of the three forms; the record_and_fetch_dual.py variant
accepts the ISO and epoch forms the same way, but its compact branch uses
the malformed strptime format "%Y-%m-%dT%H%:M%:S%z" which parses nothing,
so every input matching the compact guard yields the current time there. -/
theorem c8_timestamp_parser_per_variant {DT : Type}
    (isoParse compactParse : String → Option DT) (epochParse : Nat → Option DT)
    (now : DT) (ts : String) :
    (∀ d, pyEndsWithZ ts = true → isoParse (pyReplaceZ ts) = some d →
      parse_media_timestamp isoParse compactParse epochParse now ts = d)
    ∧ (∀ d, pyEndsWithZ ts = false → compactGuard ts = true →
      compactParse ts = some d →
      parse_media_timestamp isoParse compactParse epochParse now ts = d)
    ∧ (∀ d, pyEndsWithZ ts = false → compactGuard ts = false →
      pyIsDigit ts = true → epochParse (pyToNat ts) = some d →
      parse_media_timestamp isoParse compactParse epochParse now ts = d)
    ∧ (pyEndsWithZ ts = true → isoParse (pyReplaceZ ts) = none →
      parse_media_timestamp isoParse compactParse epochParse now ts = now)
    ∧ (pyEndsWithZ ts = false → compactGuard ts = true →
      compactParse ts = none →
      parse_media_timestamp isoParse compactParse epochParse now ts = now)
    ∧ (pyEndsWithZ ts = false → compactGuard ts = false →
      pyIsDigit ts = true → epochParse (pyToNat ts) = none →
      parse_media_timestamp isoParse compactParse epochParse now ts = now)
    ∧ (pyEndsWithZ ts = false → compactGuard ts = false →
      pyIsDigit ts = false →
      parse_media_timestamp isoParse compactParse epochParse now ts = now)
    ∧ (∀ d, pyEndsWithZ ts = true → isoParse (pyReplaceZ ts) = some d →
      parse_media_timestamp_dual isoParse epochParse now ts = d)
    ∧ (pyEndsWithZ ts = false → compactGuard ts = true →
      parse_media_timestamp_dual isoParse epochParse now ts = now)
    ∧ (∀ d, pyEndsWithZ ts = false → compactGuard ts = false →
      pyIsDigit ts = true → epochParse (pyToNat ts) = some d →
      parse_media_timestamp_dual isoParse epochParse now ts = d) := by
  refine ⟨?_, ?_, ?_, ?_, ?_, ?_, ?_, ?_, ?_, ?_⟩ <;> intros <;>
    simp_all [parse_media_timestamp, parse_media_timestamp_dual,
      dual_compact_strptime]

/-- Witness for C8: a trailing-'Z' ISO timestamp parses to the ISO
oracle's value in both variants, and the compact date-time above falls
back to the current time in the dual variant; over `DT := Nat`. -/
theorem c8_timestamp_parser_per_variant_witness :
    pyEndsWithZ "2023-01-15T12:30:45Z" = true
    ∧ pyReplaceZ "2023-01-15T12:30:45Z" = "2023-01-15T12:30:45+00:00"
    ∧ @parse_media_timestamp Nat
        (fun s => if s = "2023-01-15T12:30:45+00:00" then some 7 else none)
        (fun _ => none) (fun _ => none) 99 "2023-01-15T12:30:45Z" = 7
    ∧ @parse_media_timestamp_dual Nat
        (fun s => if s = "2023-01-15T12:30:45+00:00" then some 7 else none)
        (fun _ => none) 99 "2023-01-15T12:30:45Z" = 7
    ∧ @parse_media_timestamp_dual Nat
        (fun s => if s = "2023-01-15T12:30:45+00:00" then some 7 else none)
        (fun _ => none) 99 "20230115T123045+0000" = 99 :=
  ⟨by decide, by decide,
    (c8_timestamp_parser_per_variant
        (fun s => if s = "2023-01-15T12:30:45+00:00" then some 7 else none)
        (fun _ => none) (fun _ => none) 99 "2023-01-15T12:30:45Z").1 7
      (by decide) (by decide),
    (c8_timestamp_parser_per_variant
        (fun s => if s = "2023-01-15T12:30:45+00:00" then some 7 else none)
        (fun _ => none) (fun _ => none) 99 "2023-01-15T12:30:45Z").2.2.2.2.2.2.2.1 7
      (by decide) (by decide),
    (c8_timestamp_parser_per_variant
        (fun s => if s = "2023-01-15T12:30:45+00:00" then some 7 else none)
        (fun _ => none) (fun _ => none) 99 "20230115T123045+0000").2.2.2.2.2.2.2.2.1
      (by decide) (by decide)⟩

end GoPro
